import Mathlib

/-!
# Verification of the `vala` fluent validation library

Shallow embedding of `src/validation.go` (package `vala`).

A Go `Checker` is `func() (checkerIsTrue bool, errorMessage string)`; every
built-in checker is a pure closure over its operands, so a checker invocation
result is embedded as a pair `Bool × String`.  The `*Validation` handle is
nullable in Go (`Begin` returns `nil`), so a handle is `Option Validation`.
Go `panic` is embedded as the `.error` branch of `Except String`.
-/

set_option autoImplicit false

namespace Vala

/-- Result of invoking a `Checker`: `(checkerIsTrue, errorMessage)`.
Go: `type Checker func() (checkerIsTrue bool, errorMessage string)`. -/
abbrev CheckerRes := Bool × String

/-- Go: `type Validation struct { Errors []string }`. -/
structure Validation where
  Errors : List String
deriving DecidableEq, Repr

/-- Go: `func validationFactory(numErrors int) *Validation { return &Validation{make([]string, numErrors)} }`.
`make([]string, n)` is a slice of length `n` whose elements are the zero value `""`. -/
def validationFactory (numErrors : Nat) : Validation :=
  ⟨List.replicate numErrors ""⟩

/-- Go: `func Begin() *Validation { return nil }` — the nil handle. -/
def Begin : Option Validation :=
  none

/-- Go: `constructErrorMessage`, i.e.
`fmt.Errorf("parameter validation failed:\t%s", strings.Join(val.Errors, "\n\t"))`. -/
def constructErrorMessage (val : Validation) : String :=
  "parameter validation failed:\t" ++ String.intercalate "\n\t" val.Errors

/-- Go: `Validation.Check`. Returns `nil` (here `none`) when the handle is nil
or holds no errors, otherwise the composite error. -/
def Check : Option Validation → Option String
  | none => none
  | some val => if val.Errors.length ≤ 0 then none else some (constructErrorMessage val)

/-- Go: `Validation.CheckAndPanic`. Returns the handle unchanged when nil or
empty; otherwise panics (the `.error` branch) with the composite error. -/
def CheckAndPanic : Option Validation → Except String (Option Validation)
  | none => .ok none
  | some val =>
    if val.Errors.length ≤ 0 then .ok (some val)
    else .error (constructErrorMessage val)

/-- Go: `Validation.CheckSetErrorAndPanic(retError *error)`. When the handle is
nil or empty, returns it unchanged and leaves the slot alone; otherwise writes
`*retError = constructErrorMessage` and panics with `*retError`.  The second
component of the result is the final contents of the slot owned by the caller. -/
def CheckSetErrorAndPanic (val : Option Validation) (retError : Option String) :
    Except String (Option Validation) × Option String :=
  match val with
  | none => (.ok none, retError)
  | some v =>
    if v.Errors.length ≤ 0 then (.ok (some v), retError)
    else
      let e := constructErrorMessage v
      (.error e, some e)

/-- One iteration of the loop body of `Validation.Validate` for the result `r`
of one checker invocation: on failure, a nil handle is first replaced by
`validationFactory(1)`, then the message is appended. -/
def validateStep (val : Option Validation) (r : CheckerRes) : Option Validation :=
  if r.1 then val
  else
    let v := match val with
      | none => validationFactory 1
      | some v => v
    some { v with Errors := v.Errors ++ [r.2] }

/-- Go: `Validation.Validate(checkers ...Checker)` — the `for _, checker :=
range checkers` loop, with each checker already evaluated to its result pair. -/
def Validate (val : Option Validation) : List CheckerRes → Option Validation
  | [] => val
  | r :: rest => Validate (validateStep val r) rest

/-- The loop of `Validation.Validate` instrumented with its invocation trace: checkers are
drawn from an arbitrary type `α` and invoked through `eval` inside the loop,
exactly as the Go loop calls `checker()` once per element; the second component
records every checker invoked, in invocation order. -/
def ValidateTrace {α : Type} (eval : α → CheckerRes) (val : Option Validation) :
    List α → Option Validation × List α
  | [] => (val, [])
  | c :: rest =>
    let r := eval c
    let res := ValidateTrace eval (validateStep val r) rest
    (res.1, c :: res.2)

/-- Go: `func Not(checker Checker) Checker`, at the level of invocation
results: if the wrapped checker passed, fail with `Not(<its message>)`,
otherwise pass with the empty message. -/
def Not (checker : CheckerRes) : CheckerRes :=
  if checker.1 then (false, "Not(" ++ checker.2 ++ ")") else (true, "")

/-- A Go `interface{}` value as seen by `NotNil` and `Len`: the nil interface,
a string, one of the reference-like kinds (`reflect.Chan`, `Func`, `Interface`,
`Map`, `Ptr` carry their nilness; a slice carries `none` when nil, otherwise
its elements, abstracted to their count being what matters), or one of the
remaining concrete kinds (`Bool`, `Int`, `Float64`, `Struct`, `Array`). -/
inductive GoValue where
  | nilV : GoValue
  | strV (s : String) : GoValue
  | chanV (isNil : Bool) : GoValue
  | funcV (isNil : Bool) : GoValue
  | ifaceV (isNil : Bool) : GoValue
  | mapV (isNil : Bool) : GoValue
  | ptrV (isNil : Bool) : GoValue
  | sliceV (elems : Option (List String)) : GoValue
  | boolV (b : Bool) : GoValue
  | intV (n : Int) : GoValue
  | floatV : GoValue
  | structV : GoValue
  | arrayV (len : Nat) : GoValue
deriving DecidableEq

/-- Go: `func NotNil(obtained interface{}, paramName string) Checker`.
`obtained == nil` is the nil-interface test; a string passes iff non-empty;
the `reflect.Kind` switch handles the reference-like kinds via `v.IsNil()`;
every other kind hits the `default:` branch and panics (`.error`). -/
def NotNil (obtained : GoValue) (paramName : String) : Except String CheckerRes :=
  let msg := "Parameter was nil: " ++ paramName
  match obtained with
  | .nilV => .ok (false, msg)
  | .strV s => .ok (s != "", msg)
  | .chanV b => .ok (!b, msg)
  | .funcV b => .ok (!b, msg)
  | .ifaceV b => .ok (!b, msg)
  | .mapV b => .ok (!b, msg)
  | .ptrV b => .ok (!b, msg)
  | .sliceV o => .ok (o.isSome, msg)
  | .boolV _ => .error "Vala is unable to check this type for nilability at this time."
  | .intV _ => .error "Vala is unable to check this type for nilability at this time."
  | .floatV => .error "Vala is unable to check this type for nilability at this time."
  | .structV => .error "Vala is unable to check this type for nilability at this time."
  | .arrayV _ => .error "Vala is unable to check this type for nilability at this time."

/-- Go `reflect.ValueOf(param).Len()`: defined for strings, slices (a nil slice
has length 0) and arrays; on the kinds this model gives no length to
(including every kind that the Go `Len` itself rejects), `none` stands for the
reflect panic. -/
def goLen : GoValue → Option Nat
  | .strV s => some s.length
  | .sliceV none => some 0
  | .sliceV (some l) => some l.length
  | .arrayV n => some n
  | _ => none

/-- Go: `func Len(param interface{}, minLength, maxLength int, paramName string) Checker`:
`len := reflect.ValueOf(param).Len(); hasLen = minLength <= len && len <= maxLength`. -/
def Len (param : GoValue) (minLength maxLength : Int) (paramName : String) :
    Except String CheckerRes :=
  match goLen param with
  | none => .error "reflect: call of reflect.Value.Len on invalid type"
  | some n =>
    .ok (decide (minLength ≤ (n : Int) ∧ (n : Int) ≤ maxLength),
      "Parameter did not contain the correct number of elements: " ++ paramName)

/-- A Go dynamic type, identified by `id`; `comparable` records whether Go
defines `==` on it (slices, maps and functions are not comparable). -/
structure GoType where
  id : Nat
  comparable : Bool
deriving DecidableEq

/-- A Go `interface{}` operand of `Eq`/`Ne`: the nil interface, or a dynamic
type together with an abstract value identifier (equal identifiers at equal
types model equal dynamic values). -/
inductive GoIface where
  | nilI : GoIface
  | mk (t : GoType) (v : Nat) : GoIface
deriving DecidableEq

/-- Go `==` on two `interface{}` values (Go spec): equal iff identical dynamic
types and equal dynamic values, or both nil; comparing two values of the same
non-comparable dynamic type panics at run time. -/
def goIfaceEq : GoIface → GoIface → Except String Bool
  | .nilI, .nilI => .ok true
  | .nilI, .mk _ _ => .ok false
  | .mk _ _, .nilI => .ok false
  | .mk t1 v1, .mk t2 v2 =>
    if t1 = t2 then
      if t1.comparable then .ok (v1 = v2)
      else .error "runtime error: comparing uncomparable type"
    else .ok false

/-- Rendering of an operand in the checker message (Go `%v`), abstracted. -/
def goShow : GoIface → String
  | .nilI => "<nil>"
  | .mk _ v => toString v

/-- Go: `func Eq(lhs, rhs interface{}, paramName string) Checker`:
`return (lhs == rhs), fmt.Sprintf("Parameters were not equal: %s %v, %v", ...)`.
The interface comparison `lhs == rhs` may panic. -/
def Eq (lhs rhs : GoIface) (paramName : String) : Except String CheckerRes :=
  (goIfaceEq lhs rhs).map fun b =>
    (b, "Parameters were not equal: " ++ paramName ++ " " ++ goShow lhs ++ ", " ++ goShow rhs)

/-- Go: `func Ne(lhs, rhs interface{}, paramName string) Checker`:
`return lhs != rhs, fmt.Sprintf("Parameters were equal: %s %v == %v", ...)`. -/
def Ne (lhs rhs : GoIface) (paramName : String) : Except String CheckerRes :=
  (goIfaceEq lhs rhs).map fun b =>
    (!b, "Parameters were equal: " ++ paramName ++ " " ++ goShow lhs ++ " == " ++ goShow rhs)

/-- Whether a checker construction panicked instead of returning a result. -/
def isPanic {α : Type} : Except String α → Bool
  | .error _ => true
  | .ok _ => false

/-- Whether a fallible checker returned a passing result. -/
def checkPasses : Except String CheckerRes → Bool
  | .error _ => false
  | .ok r => r.1

/-- The kinds for which `NotNil` defines nilability, as the spec enumerates
them: the nil interface, strings, and the reference-like kinds channel,
function, interface, map, pointer, slice. -/
def nilCheckSupported : GoValue → Bool
  | .nilV => true
  | .strV _ => true
  | .chanV _ => true
  | .funcV _ => true
  | .ifaceV _ => true
  | .mapV _ => true
  | .ptrV _ => true
  | .sliceV _ => true
  | _ => false

/-- An `Eq`/`Ne` operand of comparable dynamic type (the nil interface is
always comparable). -/
def comparableOperand : GoIface → Bool
  | .nilI => true
  | .mk t _ => t.comparable

end Vala

/-- C1 (failing input): a batch with a single failing checker, run by `Validate`
on the fresh handle `Begin()`, records TWO error entries — a spurious leading
`""` pre-seeded by the `make([]string, 1)` inside `validationFactory(1)` — and `Check`
reports a composite message with a stray empty line, instead of the exactly
`k = 1` entries the claim requires. -/
theorem validate_fresh_single_failure_records_two_entries :
    Vala.Validate Vala.Begin [(false, "m")] = some ⟨["", "m"]⟩ ∧
    Vala.Check (Vala.Validate Vala.Begin [(false, "m")]) =
      some "parameter validation failed:\t\n\tm" := by
  constructor <;> rfl

/-- C2 (failing input): the nil handle `Begin()` and a handle holding an
aggregate with zero recorded errors are distinguishable: running `Validate`
with one failing checker from each yields different aggregates and different
`Check` results, because the aggregate lazily allocated for the nil handle starts
with a spurious `""` entry. -/
theorem nil_handle_differs_from_empty_aggregate :
    Vala.Check (Vala.Validate Vala.Begin [(false, "m")]) ≠
      Vala.Check (Vala.Validate (some ⟨[]⟩) [(false, "m")]) ∧
    Vala.Validate Vala.Begin [(false, "m")] ≠ Vala.Validate (some ⟨[]⟩) [(false, "m")] := by
  constructor <;> decide

/-- C3: `Validate` invokes every checker of the batch exactly once, in argument
order, unconditionally — the invocation trace of the instrumented loop is the
whole batch, whatever the starting handle (so earlier failures never suppress
later invocations), and its result agrees with `Validate`. -/
theorem validate_invokes_every_checker_in_order {α : Type} (eval : α → Vala.CheckerRes)
    (val : Option Vala.Validation) (checkers : List α) :
    (Vala.ValidateTrace eval val checkers).2 = checkers ∧
    (Vala.ValidateTrace eval val checkers).1 = Vala.Validate val (List.map eval checkers) := by
  induction checkers generalizing val with
  | nil => exact ⟨rfl, rfl⟩
  | cons c rest ih =>
    constructor
    · show c :: (Vala.ValidateTrace eval (Vala.validateStep val (eval c)) rest).2 = c :: rest
      rw [(ih _).1]
    · show (Vala.ValidateTrace eval (Vala.validateStep val (eval c)) rest).1 =
        Vala.Validate val (List.map eval (c :: rest))
      rw [(ih _).2]
      rfl

/-- C4: when the wrapped checker passes (with message `m`), `Not` fails with
the cause `"Not(" ++ m ++ ")"` built by the negation itself, which is never
equal to the original cause `m` of the wrapped checker. -/
theorem not_fails_with_own_cause (c : Vala.CheckerRes) (h : c.1 = true) :
    Vala.Not c = (false, "Not(" ++ c.2 ++ ")") ∧ (Vala.Not c).2 ≠ c.2 := by
  obtain ⟨b, m⟩ := c
  cases h
  refine ⟨by simp [Vala.Not], ?_⟩
  simp only [Vala.Not, if_true]
  intro hEq
  have h1 := congrArg String.length hEq
  simp only [String.length_append] at h1
  have h4 : ("Not(" : String).length = 4 := rfl
  have h5 : (")" : String).length = 1 := rfl
  omega

/-- Witness for C4 at the concrete passing checker `(true, "msg")`. -/
theorem not_fails_with_own_cause_witness :
    Vala.Not (true, "msg") = (false, "Not(msg)") ∧ (Vala.Not (true, "msg")).2 ≠ "msg" := by
  have h := not_fails_with_own_cause (true, "msg") rfl
  exact ⟨h.1, h.2⟩

/-- C5: `CheckAndPanic` on a handle with no recorded failures returns the
handle unchanged without panicking; on a handle with at least one recorded
failure it panics, and the panic payload is exactly the composite error that
`Check` returns on the same handle. -/
theorem checkAndPanic_spec (val : Option Vala.Validation) :
    ((∀ v : Vala.Validation, val = some v → v.Errors = []) →
      Vala.CheckAndPanic val = .ok val) ∧
    (∀ v : Vala.Validation, val = some v → v.Errors ≠ [] →
      Vala.CheckAndPanic val = .error (Vala.constructErrorMessage v) ∧
      Vala.Check val = some (Vala.constructErrorMessage v)) := by
  constructor
  · intro h
    match val with
    | none => rfl
    | some v =>
      have hE := h v rfl
      simp [Vala.CheckAndPanic, hE]
  · rintro v rfl hne
    have hpos : 0 < v.Errors.length := List.length_pos.mpr hne
    refine ⟨?_, ?_⟩ <;> simp [Vala.CheckAndPanic, Vala.Check, Nat.not_le.mpr hpos]

/-- Witness for C5: a one-error handle panics with the composite error `Check`
would return; an empty handle is returned unchanged. -/
theorem checkAndPanic_spec_witness :
    Vala.CheckAndPanic (some ⟨[]⟩) = .ok (some ⟨[]⟩) ∧
    Vala.CheckAndPanic (some ⟨["x"]⟩) = .error "parameter validation failed:\tx" ∧
    Vala.Check (some ⟨["x"]⟩) = some "parameter validation failed:\tx" := by
  have h0 := (checkAndPanic_spec (some ⟨[]⟩)).1
  have h1 := (checkAndPanic_spec (some ⟨["x"]⟩)).2 ⟨["x"]⟩ rfl (by decide)
  have he : Vala.constructErrorMessage ⟨["x"]⟩ = "parameter validation failed:\tx" := by decide
  refine ⟨h0 ?_, he ▸ h1.1, he ▸ h1.2⟩
  intro v hv
  injection hv with h2
  rw [← h2]

/-- C6: `CheckSetErrorAndPanic` on a handle with at least one recorded failure
writes the composite error into the slot of the caller and panics with that same
error; on a handle with no recorded failures it returns the handle unchanged
and leaves the slot untouched. -/
theorem checkSetErrorAndPanic_spec (val : Option Vala.Validation) (slot : Option String) :
    ((∀ v : Vala.Validation, val = some v → v.Errors = []) →
      Vala.CheckSetErrorAndPanic val slot = (.ok val, slot)) ∧
    (∀ v : Vala.Validation, val = some v → v.Errors ≠ [] →
      Vala.CheckSetErrorAndPanic val slot =
        (.error (Vala.constructErrorMessage v), some (Vala.constructErrorMessage v))) := by
  constructor
  · intro h
    match val with
    | none => rfl
    | some v =>
      have hE := h v rfl
      simp [Vala.CheckSetErrorAndPanic, hE]
  · rintro v rfl hne
    have hpos : 0 < v.Errors.length := List.length_pos.mpr hne
    simp [Vala.CheckSetErrorAndPanic, Nat.not_le.mpr hpos]

/-- Witness for C6: with one recorded error the slot receives the same
composite error the panic carries; with none, handle and slot are unchanged. -/
theorem checkSetErrorAndPanic_spec_witness :
    Vala.CheckSetErrorAndPanic (some ⟨[]⟩) none = (.ok (some ⟨[]⟩), none) ∧
    Vala.CheckSetErrorAndPanic (some ⟨["x"]⟩) none =
      (.error "parameter validation failed:\tx", some "parameter validation failed:\tx") := by
  have h0 := (checkSetErrorAndPanic_spec (some ⟨[]⟩) none).1
  have h1 := (checkSetErrorAndPanic_spec (some ⟨["x"]⟩) none).2 ⟨["x"]⟩ rfl (by decide)
  have he : Vala.constructErrorMessage ⟨["x"]⟩ = "parameter validation failed:\tx" := by decide
  refine ⟨h0 ?_, he ▸ h1⟩
  intro v hv
  injection hv with h2
  rw [← h2]

/-- C7: double negation — `Not (Not c)` passes exactly when `c` passes, so it
fails exactly when `c` fails, for every checker result. -/
theorem not_not_preserves_pass_fail (c : Vala.CheckerRes) :
    (Vala.Not (Vala.Not c)).1 = c.1 := by
  obtain ⟨b, m⟩ := c
  cases b <;> simp [Vala.Not]

/-- C8: the checker built by `NotNil` panics exactly on the value kinds outside
nil, string, channel, function, interface, map, pointer and slice; on those
listed kinds it never panics. -/
theorem notNil_panics_iff_unsupported_kind (v : Vala.GoValue) (p : String) :
    Vala.isPanic (Vala.NotNil v p) = !Vala.nilCheckSupported v := by
  cases v <;> rfl

/-- C9: the range check of `Len` passes exactly when
`minLength ≤ length ≤ maxLength`, inclusive at both ends (so length 3 with
bounds 2..5 passes, length 0 with bounds 1..1 fails, and boundary values
pass). -/
theorem len_range_inclusive (param : Vala.GoValue) (n : Nat) (minL maxL : Int) (p : String)
    (h : Vala.goLen param = some n) :
    Vala.checkPasses (Vala.Len param minL maxL p) = true ↔
      minL ≤ (n : Int) ∧ (n : Int) ≤ maxL := by
  simp [Vala.Len, h, Vala.checkPasses]

/-- Witness for C9: `Len("abc", 2, 5, _)` measures length 3 and passes. -/
theorem len_range_inclusive_witness :
    Vala.checkPasses (Vala.Len (Vala.GoValue.strV "abc") 2 5 "x") = true :=
  (len_range_inclusive (Vala.GoValue.strV "abc") 3 2 5 "x" (by decide)).mpr (by decide)

/-- C10: comparing two operands of the same non-comparable dynamic type (two
slices, modelled as type id 0 with `comparable := false`) makes the checkers
built by `Eq` and `Ne` panic; on operands of comparable dynamic type (or nil)
they never panic. -/
theorem eq_ne_panic_uncomparable_only :
    Vala.isPanic (Vala.Eq (Vala.GoIface.mk ⟨0, false⟩ 0) (Vala.GoIface.mk ⟨0, false⟩ 1) "s")
        = true ∧
    Vala.isPanic (Vala.Ne (Vala.GoIface.mk ⟨0, false⟩ 0) (Vala.GoIface.mk ⟨0, false⟩ 1) "s")
        = true ∧
    ∀ (l r : Vala.GoIface) (p : String),
      Vala.comparableOperand l = true → Vala.comparableOperand r = true →
      Vala.isPanic (Vala.Eq l r p) = false ∧ Vala.isPanic (Vala.Ne l r p) = false := by
  refine ⟨rfl, rfl, ?_⟩
  intro l r p hl hr
  cases l with
  | nilI =>
    cases r <;> exact ⟨rfl, rfl⟩
  | mk t1 v1 =>
    cases r with
    | nilI => exact ⟨rfl, rfl⟩
    | mk t2 v2 =>
      simp only [Vala.comparableOperand] at hl hr
      by_cases ht : t1 = t2
      · subst ht
        simp [Vala.Eq, Vala.Ne, Vala.goIfaceEq, hl, Vala.isPanic, Except.map]
      · simp [Vala.Eq, Vala.Ne, Vala.goIfaceEq, ht, Vala.isPanic, Except.map]

/-- Witness for C10: comparing two operands of a comparable dynamic type does
not panic. -/
theorem eq_ne_panic_uncomparable_only_witness :
    Vala.isPanic (Vala.Eq (Vala.GoIface.mk ⟨1, true⟩ 0) (Vala.GoIface.mk ⟨1, true⟩ 0) "s")
      = false :=
  (eq_ne_panic_uncomparable_only.2.2 (Vala.GoIface.mk ⟨1, true⟩ 0)
    (Vala.GoIface.mk ⟨1, true⟩ 0) "s" rfl rfl).1
